import Mathlib

/-!
Shallow embedding of the GoodSpa HTTP API server (src/index.js): a spa-booking
backend with booking, testimonial and simulated-payment route handlers over a
relational store.  Request-body values are modelled as the scalar JSON values
an express.json body can carry (strings, numbers, booleans, null) plus the
absent value (undefined); JS numbers are modelled as rationals.  The database
schema is not part of the repository, so the store is modelled from the spec
(section 3, DATA MODEL): rows keep the inserted parameter values, ids are
server-assigned, and list queries order by the stated column.
-/

namespace GoodSpa

/-- Scalar JSON value of a parsed request-body field; undefined stands for an
absent field. -/
inductive JSVal where
  | undefined
  | null
  | bool (b : Bool)
  | num (q : Rat)
  | str (s : String)
deriving DecidableEq, Repr

/-- JS truthiness of a scalar value: undefined, null, false, 0 and the empty
string are falsy, everything else truthy. -/
def truthy : JSVal → Bool
  | .undefined => false
  | .null => false
  | .bool b => b
  | .num q => q != 0
  | .str s => s != ""

/-- Decimal digit characters of a natural number, most significant first,
with explicit fuel so that the kernel can evaluate it; the fuel n + 1 always
covers the digit count of n. -/
def natCharsAux : Nat → Nat → List Char
  | 0, _ => []
  | fuel + 1, n =>
    if n < 10 then [Nat.digitChar n]
    else natCharsAux fuel (n / 10) ++ [Nat.digitChar (n % 10)]

/-- Decimal digit characters of a natural number, most significant first. -/
def natChars (n : Nat) : List Char :=
  natCharsAux (n + 1) n

/-- Digits of the fractional part of rem / d in decimal, with fuel.  The JS
numbers reaching this code are dyadic rationals whose shortest decimal form is
exact and short, so the fuel never runs out on realisable inputs. -/
def fracChars : Nat → Nat → Nat → List Char
  | 0, _, _ => []
  | fuel + 1, rem, d =>
    if rem = 0 then []
    else Nat.digitChar (rem * 10 / d) :: fracChars fuel (rem * 10 % d) d

/-- Decimal rendering of a rational, modelling JS number-to-string
conversion on the numbers the API handles. -/
def ratToString (q : Rat) : String :=
  let sign := if q < 0 then "-" else ""
  let n := q.num.natAbs
  let d := q.den
  let ip := n / d
  let rem := n % d
  sign ++ String.mk (natChars ip) ++
    (if rem = 0 then "" else "." ++ String.mk (fracChars 64 rem d))

/-- JS String(v) conversion for the scalar values modelled. -/
def jsToString : JSVal → String
  | .undefined => "undefined"
  | .null => "null"
  | .bool b => if b then "true" else "false"
  | .num q => ratToString q
  | .str s => s

/-- Value of a list of decimal digit characters. -/
def digitsVal (l : List Char) : Nat :=
  l.foldl (fun a c => 10 * a + (c.toNat - 48)) 0

/-- Parse a full decimal literal (digits, optionally a dot and digits, with at
least one digit overall); none models NaN.  This is the core of JS ToNumber on
strings; exponent and hex forms are not modelled (no API input uses them). -/
def parseDecCore (l : List Char) : Option Rat :=
  let intD := l.takeWhile Char.isDigit
  let rest := l.dropWhile Char.isDigit
  match rest with
  | [] => if intD = [] then none else some (digitsVal intD)
  | '.' :: r =>
      if r.all Char.isDigit && !(intD = [] && r = []) then
        some ((digitsVal intD : Rat) + (digitsVal r : Rat) / (10 ^ r.length))
      else none
  | _ => none

/-- Whitespace characters trimmed by string-to-number conversion. -/
def isSpaceChar (c : Char) : Bool :=
  c == ' ' || c == '\t' || c == '\n' || c == '\r'

/-- Removal of leading and trailing whitespace. -/
def trimChars (l : List Char) : List Char :=
  ((l.dropWhile isSpaceChar).reverse.dropWhile isSpaceChar).reverse

/-- JS ToNumber on a string: trimmed empty string is 0, otherwise an optional
sign followed by a full decimal literal; none models NaN. -/
def strToNumber (s : String) : Option Rat :=
  match trimChars s.toList with
  | [] => some 0
  | '+' :: r => parseDecCore r
  | '-' :: r => (parseDecCore r).map (fun q => -q)
  | l => parseDecCore l

/-- JS ToNumber on a scalar value; none models NaN. -/
def toNumber : JSVal → Option Rat
  | .undefined => none
  | .null => some 0
  | .bool b => some (if b then 1 else 0)
  | .num q => some q
  | .str s => strToNumber s

/-- JS comparison v less-than q for a number literal q: ToNumber the operand,
any comparison with NaN is false. -/
def jsLtNum (v : JSVal) (q : Rat) : Bool :=
  match toNumber v with
  | none => false
  | some x => x < q

/-- JS comparison v greater-than q for a number literal q. -/
def jsGtNum (v : JSVal) (q : Rat) : Bool :=
  match toNumber v with
  | none => false
  | some x => q < x

/-- Characters kept by the price regex replace: the regex class excludes
everything that is not a digit or a dot, and replace with the global flag
deletes every excluded character. -/
def stripPriceChars (s : String) : List Char :=
  s.toList.filter (fun c => c.isDigit || c == '.')

/-- JS parseFloat restricted to strings of digits and dots (exactly what the
price strip produces, so sign, whitespace and exponent handling of full
parseFloat are vacuous here): longest prefix of the form digits, optionally a
dot and digits; none models NaN (no leading digit and no digit after a leading
dot). -/
def parseFloatDD (l : List Char) : Option Rat :=
  let intD := l.takeWhile Char.isDigit
  let rest := l.dropWhile Char.isDigit
  let fracD := match rest with
    | '.' :: r => r.takeWhile Char.isDigit
    | _ => []
  if intD = [] && fracD = [] then none
  else some ((digitsVal intD : Rat) + (digitsVal fracD : Rat) / (10 ^ fracD.length))

/-- Price normalization of the booking-create handler, line 84 of
src/index.js: parseFloat of String(price) with every character that is not a
digit or a dot removed; none models NaN. -/
def cleanPrice (v : JSVal) : Option Rat :=
  parseFloatDD (stripPriceChars (jsToString v))

/-- Modelled from the spec: the id columns are server-generated integer keys
(schema is not in src/).  A parameter sent to the store for an id comparison
is read as an integer; a value with no integer reading would raise a
StoreError, modelled as none. -/
def jsIdVal : JSVal → Option Int
  | .num q => if q.den = 1 then some q.num else none
  | .str s =>
      match trimChars s.toList with
      | [] => none
      | l => if l.all Char.isDigit then some (digitsVal l) else none
  | _ => none

/-- Booking row as stored, modelled from the spec (section 3): a
server-assigned id, the inserted field values, the normalized decimal price
(none models NaN) and a payment_status that starts unset (none). -/
structure Booking where
  id : Nat
  service : JSVal
  duration : JSVal
  price : Option Rat
  name : JSVal
  phone : JSVal
  datetime : JSVal
  payment_status : Option String
deriving DecidableEq, Repr

/-- Testimonial row as stored, modelled from the spec (section 3): a
server-assigned id, the inserted field values and a server-generated creation
timestamp. -/
structure Testimonial where
  id : Nat
  reviewer_name : JSVal
  reviewer_email : JSVal
  review_title : JSVal
  review_text : JSVal
  rating : JSVal
  genuine_opinion : JSVal
  created_at : Nat
deriving DecidableEq, Repr

/-- State of the relational store, modelled from the spec: the two tables,
the next server-assigned id for each, and the store clock used for NOW(). -/
structure Store where
  bookings : List Booking
  testimonials : List Testimonial
  nextBookingId : Nat
  nextTestimonialId : Nat
  now : Nat
deriving DecidableEq, Repr

/-- Body of a JSON response, separating error messages, confirmation
messages, returned rows and the payment-initiation payload. -/
inductive RespBody where
  | errorMsg (s : String)
  | message (s : String)
  | bookingRow (b : Booking)
  | bookingRows (l : List Booking)
  | testimonialRow (t : Testimonial)
  | testimonialRows (l : List Testimonial)
  | paymentInit (message qrCodeUrl transactionId status : String)
deriving DecidableEq, Repr

/-- HTTP response: status code and JSON body. -/
structure Response where
  status : Nat
  body : RespBody
deriving DecidableEq, Repr

/-- Whether a response body carries the given booking row. -/
def bodyHasBooking (body : RespBody) (bk : Booking) : Bool :=
  match body with
  | .bookingRow b => b == bk
  | .bookingRows l => l.contains bk
  | _ => false

/-- Mixed-radix instant of a calendar timestamp.  Each radix strictly
exceeds the bound enforced on the following component (month at most 12,
day at most 31, hour below 24, minute and second below 60), so the encoding
is strictly monotone in the lexicographic order of
(year, month, day, hour, minute, second), which is chronological order. -/
def tsEncode (y mo d h mi s : Nat) : Nat :=
  ((((y * 13 + mo) * 32 + d) * 24 + h) * 60 + mi) * 60 + s

/-- Value of a two-digit group. -/
def pairVal (a b : Char) : Nat :=
  (a.toNat - 48) * 10 + (b.toNat - 48)

/-- Clock part of a timestamp literal after the date: nothing (midnight),
or a space or the letter T followed by HH:MM and optionally :SS, with each
component bounds-checked. -/
def parseClock (l : List Char) (y mo d : Nat) : Option Nat :=
  match l with
  | [] => some (tsEncode y mo d 0 0 0)
  | sep :: h1 :: h2 :: ':' :: m1 :: m2 :: rest =>
    if (sep = 'T' ∨ sep = ' ') ∧ h1.isDigit ∧ h2.isDigit ∧ m1.isDigit ∧ m2.isDigit
        ∧ pairVal h1 h2 < 24 ∧ pairVal m1 m2 < 60 then
      match rest with
      | [] => some (tsEncode y mo d (pairVal h1 h2) (pairVal m1 m2) 0)
      | ':' :: s1 :: s2 :: [] =>
        if s1.isDigit ∧ s2.isDigit ∧ pairVal s1 s2 < 60 then
          some (tsEncode y mo d (pairVal h1 h2) (pairVal m1 m2) (pairVal s1 s2))
        else none
      | _ => none
    else none
  | _ => none

/-- Instant of an ISO-8601 extended timestamp literal: a year of digits,
a zero-padded month and day each bounds-checked, then an optional clock.
Any other spelling yields none. -/
def parseTimestamp (l : List Char) : Option Nat :=
  match l.dropWhile Char.isDigit with
  | '-' :: mo1 :: mo2 :: '-' :: d1 :: d2 :: rest =>
    if l.takeWhile Char.isDigit ≠ [] ∧ mo1.isDigit ∧ mo2.isDigit
        ∧ d1.isDigit ∧ d2.isDigit
        ∧ 1 ≤ pairVal mo1 mo2 ∧ pairVal mo1 mo2 ≤ 12
        ∧ 1 ≤ pairVal d1 d2 ∧ pairVal d1 d2 ≤ 31 then
      parseClock rest (digitsVal (l.takeWhile Char.isDigit))
        (pairVal mo1 mo2) (pairVal d1 d2)
    else none
  | _ => none

/-- Modelled from the spec: the datetime column is a timestamp (the schema
is not in src/), and ORDER BY datetime compares the stored instants
chronologically.  A stored string in ISO-8601 extended form — YYYY-MM-DD,
optionally followed by a space or the letter T and HH:MM or HH:MM:SS —
denotes its instant through the monotone encoding tsEncode; a date-only
literal denotes midnight, as in the store.  A numeric value denotes an
instant directly.  Spellings outside this form (timezone suffixes,
fractional seconds, compact digit-only dates) are not modelled and map to
instant 0. -/
def tsVal (v : JSVal) : Rat :=
  match v with
  | .num q => q
  | .str s =>
    match parseTimestamp s.toList with
    | some n => (n : Rat)
    | none => 0
  | _ => 0

/-- Ordering relation of ORDER BY datetime DESC: a row comes before another
when its datetime instant is at least the other one. -/
def bookingGe (a b : Booking) : Prop :=
  tsVal b.datetime ≤ tsVal a.datetime

instance : DecidableRel bookingGe :=
  fun a b => inferInstanceAs (Decidable (tsVal b.datetime ≤ tsVal a.datetime))

instance : IsTotal Booking bookingGe :=
  ⟨fun a b => le_total (tsVal b.datetime) (tsVal a.datetime)⟩

instance : IsTrans Booking bookingGe :=
  ⟨fun _ _ _ h1 h2 => le_trans h2 h1⟩

/-- Ordering relation of ORDER BY created_at DESC on testimonials. -/
def testimonialGe (a b : Testimonial) : Prop :=
  b.created_at ≤ a.created_at

instance : DecidableRel testimonialGe :=
  fun a b => inferInstanceAs (Decidable (b.created_at ≤ a.created_at))

instance : IsTotal Testimonial testimonialGe :=
  ⟨fun a b => le_total b.created_at a.created_at⟩

instance : IsTrans Testimonial testimonialGe :=
  ⟨fun _ _ _ h1 h2 => le_trans h2 h1⟩

/-- Result rows of SELECT * FROM booking_spa12 ORDER BY datetime DESC. -/
def sortBookings (l : List Booking) : List Booking :=
  List.insertionSort bookingGe l

/-- Result rows of SELECT * FROM testimonials ORDER BY created_at DESC. -/
def sortTestimonials (l : List Testimonial) : List Testimonial :=
  List.insertionSort testimonialGe l

/-- GET /booking_spa12 (src/index.js lines 67-75): all booking rows ordered
by datetime descending, status 200. -/
def getBookings (st : Store) : Response :=
  { status := 200, body := .bookingRows (sortBookings st.bookings) }

/-- GET /api/testimonials (src/index.js lines 186-194): all testimonial rows
ordered by created_at descending, status 200. -/
def getTestimonials (st : Store) : Response :=
  { status := 200, body := .testimonialRows (sortTestimonials st.testimonials) }

/-- Request body of POST /booking_spa12. -/
structure BookingBody where
  service : JSVal
  duration : JSVal
  price : JSVal
  name : JSVal
  phone : JSVal
  datetime : JSVal
deriving DecidableEq, Repr

/-- Row inserted by the booking create: the next server-assigned id, the
submitted field values with the price normalized, and the default unset
payment_status. -/
def mkBooking (b : BookingBody) (st : Store) : Booking :=
  { id := st.nextBookingId, service := b.service, duration := b.duration,
    price := cleanPrice b.price, name := b.name, phone := b.phone,
    datetime := b.datetime, payment_status := none }

/-- POST /booking_spa12 (src/index.js lines 77-96): all six fields must be
truthy, otherwise 400 before any store access; the price is normalized by
cleanPrice; on success the inserted row is returned with 201. -/
def postBooking (b : BookingBody) (st : Store) : Response × Store :=
  if !truthy b.service || !truthy b.duration || !truthy b.price
      || !truthy b.name || !truthy b.phone || !truthy b.datetime then
    ({ status := 400, body := .errorMsg "All booking fields are required." }, st)
  else
    ({ status := 201, body := .bookingRow (mkBooking b st) },
     { st with bookings := st.bookings ++ [mkBooking b st],
               nextBookingId := st.nextBookingId + 1 })

/-- Request body of POST /api/payments/confirm. -/
structure ConfirmBody where
  bookingId : JSVal
deriving DecidableEq, Repr

/-- Row transform of the confirmation UPDATE: a row whose id matches gets
payment_status completed, any other row is unchanged. -/
def completeFor (i : Int) (bk : Booking) : Booking :=
  if (bk.id : Int) = i then { bk with payment_status := some "completed" } else bk

/-- POST /api/payments/confirm (src/index.js lines 133-153): missing
bookingId gives 400; the UPDATE sets payment_status to completed on every row
whose id matches; zero matched rows give 404, otherwise 200 with a
confirmation message.  A bookingId with no integer reading makes the store
raise, caught as the 500 branch. -/
def confirmPayment (b : ConfirmBody) (st : Store) : Response × Store :=
  if !truthy b.bookingId then
    ({ status := 400, body := .errorMsg "Booking ID is required to confirm payment." }, st)
  else
    match jsIdVal b.bookingId with
    | none =>
      ({ status := 500, body := .errorMsg "Failed to update payment status in the database." }, st)
    | some i =>
      let updated := st.bookings.map (completeFor i)
      let matched := (st.bookings.filter (fun bk => (bk.id : Int) == i)).length
      let st' := { st with bookings := updated }
      if matched = 0 then
        ({ status := 404,
           body := .errorMsg ("Booking with ID " ++ jsToString b.bookingId
             ++ " not found for payment confirmation.") }, st')
      else
        ({ status := 200,
           body := .message ("Payment for booking ID " ++ jsToString b.bookingId
             ++ " confirmed successfully.") }, st')

/-- Request body of POST /api/payments/initiate. -/
structure InitiateBody where
  amount : JSVal
  serviceName : JSVal
  bookingId : JSVal
deriving DecidableEq, Repr

/-- Runtime exception of a handler; the only one reachable in this server is
the TypeError of calling a string method on a non-string. -/
inductive JsError where
  | typeError
deriving DecidableEq, Repr

/-- JS someString.replace with a one-character pattern string: only the first
occurrence is removed. -/
def removeFirst (c : Char) : List Char → List Char
  | [] => []
  | d :: r => if d == c then r else d :: removeFirst c r

/-- Character of a base-36 digit, as produced by JS Number.toString(36):
0-9 then lowercase a-z. -/
def base36Char (d : Fin 36) : Char :=
  if d.val < 10 then Nat.digitChar d.val
  else Char.ofNat (97 + (d.val - 10))

/-- Transaction id of the payment-initiation handler (src/index.js line 121):
TXN-, the decimal digits of Date.now(), a dash, then the base-36 fractional
digits of Math.random() (up to 9 of them). -/
def txnId (now : Nat) (rand : List (Fin 36)) : String :=
  "TXN-" ++ String.mk (natChars now) ++ "-" ++ String.mk (rand.map base36Char)

/-- QR code URL of the payment-initiation handler (src/index.js line 120),
for a string amount: the first dollar sign of the amount is removed. -/
def qrUrl (amount : String) (bookingId : JSVal) : String :=
  "https://i.postimg.cc/Dz3sgw1N/QR1.jpg?amount="
    ++ String.mk (removeFirst '$' amount.toList)
    ++ "&bookingId=" ++ jsToString bookingId

/-- POST /api/payments/initiate (src/index.js lines 114-130): all three
fields must be truthy, otherwise 400; then amount.replace is evaluated, which
raises a TypeError when amount is not a string; on a string amount the
response (after the fixed delay) is 200 with the simulated payload and no
store access at all.  The clock and random digits feeding the transaction id
are passed as arguments. -/
def initiatePayment (now : Nat) (rand : List (Fin 36)) (b : InitiateBody)
    (st : Store) : Except JsError (Response × Store) :=
  if !truthy b.amount || !truthy b.serviceName || !truthy b.bookingId then
    .ok ({ status := 400,
           body := .errorMsg "Payment amount, service name, and booking ID are required to initiate payment." }, st)
  else
    match b.amount with
    | .str a =>
      .ok ({ status := 200,
             body := .paymentInit "Payment initiation successful (simulated). Scan QR to complete."
               (qrUrl a b.bookingId) (txnId now rand) "pending" }, st)
    | _ => .error .typeError

/-- Request body of POST /api/testimonials. -/
structure TestimonialBody where
  reviewerName : JSVal
  reviewerEmail : JSVal
  reviewTitle : JSVal
  reviewText : JSVal
  rating : JSVal
  genuineOpinion : JSVal
deriving DecidableEq, Repr

/-- POST /api/testimonials (src/index.js lines 161-179): reviewerName,
reviewerEmail, reviewText and rating must be truthy and genuineOpinion must
not be strictly undefined, otherwise the missing-field 400; then a rating
comparing below 1 or above 5 gives the range 400; otherwise the row is
inserted with the store clock as created_at and returned with 201. -/
def postTestimonial (b : TestimonialBody) (st : Store) : Response × Store :=
  if !truthy b.reviewerName || !truthy b.reviewerEmail || !truthy b.reviewText
      || !truthy b.rating || b.genuineOpinion == .undefined then
    ({ status := 400, body := .errorMsg "All testimonial fields (except title) are required." }, st)
  else if jsLtNum b.rating 1 || jsGtNum b.rating 5 then
    ({ status := 400, body := .errorMsg "Rating must be between 1 and 5." }, st)
  else
    let row : Testimonial :=
      { id := st.nextTestimonialId, reviewer_name := b.reviewerName,
        reviewer_email := b.reviewerEmail, review_title := b.reviewTitle,
        review_text := b.reviewText, rating := b.rating,
        genuine_opinion := b.genuineOpinion, created_at := st.now }
    ({ status := 201, body := .testimonialRow row },
     { st with testimonials := st.testimonials ++ [row],
               nextTestimonialId := st.nextTestimonialId + 1 })

/-- Matcher for the pattern TXN-(digits)-(alphanumeric): the literal TXN-,
one or more decimal digits, a dash, then one or more base-36 alphanumeric
characters. -/
def isLowerAlnum (c : Char) : Bool :=
  c.isDigit || ('a' ≤ c && c ≤ 'z')

/-- Decides whether a string matches TXN-(digits)-(alphanumeric). -/
def txnMatches (s : String) : Bool :=
  match s.toList with
  | c1 :: c2 :: c3 :: c4 :: rest =>
    c1 == 'T' && c2 == 'X' && c3 == 'N' && c4 == '-' &&
      (match rest.dropWhile Char.isDigit with
       | c5 :: tail =>
           c5 == '-' && !(rest.takeWhile Char.isDigit).isEmpty
             && !tail.isEmpty && tail.all isLowerAlnum
       | _ => false)
  | _ => false

/-- Store with no rows, as after table creation. -/
def emptyStore : Store :=
  { bookings := [], testimonials := [], nextBookingId := 1,
    nextTestimonialId := 1, now := 0 }

/-- Concrete booking row used in concrete evaluations. -/
def bk1 : Booking :=
  { id := 1, service := .str "Massage", duration := .str "60",
    price := some 45, name := .str "Ann", phone := .str "0123",
    datetime := .str "20240101", payment_status := none }

/-- Store holding exactly the booking bk1. -/
def st1 : Store :=
  { bookings := [bk1], testimonials := [], nextBookingId := 2,
    nextTestimonialId := 1, now := 5 }

/-- Testimonial body whose fields other than the rating are present and
well-formed. -/
def tbody (r : JSVal) : TestimonialBody :=
  { reviewerName := .str "Ann", reviewerEmail := .str "ann@spa.example",
    reviewTitle := .undefined, reviewText := .str "Lovely visit",
    rating := r, genuineOpinion := .bool true }

/-- Truthiness of a number is being nonzero. -/
theorem truthy_num (q : Rat) : truthy (.num q) = (q != 0) := rfl

/-- Comparison of a number value below a numeric literal. -/
theorem jsLtNum_num (r q : Rat) : jsLtNum (.num r) q = decide (r < q) := rfl

/-- Comparison of a number value above a numeric literal. -/
theorem jsGtNum_num (r q : Rat) : jsGtNum (.num r) q = decide (q < r) := rfl

/-- Presence condition of the testimonial handler, reduced to the rating
check when the three text fields are truthy and genuineOpinion is present. -/
theorem testimonialCond_eq (b : TestimonialBody)
    (h1 : truthy b.reviewerName = true) (h2 : truthy b.reviewerEmail = true)
    (h3 : truthy b.reviewText = true)
    (h4 : (b.genuineOpinion == JSVal.undefined) = false) :
    (!truthy b.reviewerName || !truthy b.reviewerEmail || !truthy b.reviewText
      || !truthy b.rating || b.genuineOpinion == JSVal.undefined)
      = !truthy b.rating := by
  rw [h1, h2, h3, h4]
  simp

/-- Outcome of the testimonial create when the presence check fires. -/
theorem postTestimonial_missing (b : TestimonialBody) (st : Store)
    (h : (!truthy b.reviewerName || !truthy b.reviewerEmail || !truthy b.reviewText
      || !truthy b.rating || b.genuineOpinion == JSVal.undefined) = true) :
    postTestimonial b st
      = ({ status := 400,
           body := .errorMsg "All testimonial fields (except title) are required." }, st) := by
  unfold postTestimonial
  rw [h]
  simp

/-- Outcome of the testimonial create when the fields are present but the
rating range check fires. -/
theorem postTestimonial_range (b : TestimonialBody) (st : Store)
    (h : (!truthy b.reviewerName || !truthy b.reviewerEmail || !truthy b.reviewText
      || !truthy b.rating || b.genuineOpinion == JSVal.undefined) = false)
    (h2 : (jsLtNum b.rating 1 || jsGtNum b.rating 5) = true) :
    postTestimonial b st
      = ({ status := 400, body := .errorMsg "Rating must be between 1 and 5." }, st) := by
  unfold postTestimonial
  rw [h, h2]
  simp

/-- Outcome of the testimonial create when both checks pass: the row is
inserted with the store clock and returned with 201. -/
theorem postTestimonial_created (b : TestimonialBody) (st : Store)
    (h : (!truthy b.reviewerName || !truthy b.reviewerEmail || !truthy b.reviewText
      || !truthy b.rating || b.genuineOpinion == JSVal.undefined) = false)
    (h2 : (jsLtNum b.rating 1 || jsGtNum b.rating 5) = false) :
    postTestimonial b st
      = ({ status := 201,
           body := .testimonialRow
             { id := st.nextTestimonialId, reviewer_name := b.reviewerName,
               reviewer_email := b.reviewerEmail, review_title := b.reviewTitle,
               review_text := b.reviewText, rating := b.rating,
               genuine_opinion := b.genuineOpinion, created_at := st.now } },
         { st with
             testimonials := st.testimonials ++
               [{ id := st.nextTestimonialId, reviewer_name := b.reviewerName,
                  reviewer_email := b.reviewerEmail, review_title := b.reviewTitle,
                  review_text := b.reviewText, rating := b.rating,
                  genuine_opinion := b.genuineOpinion, created_at := st.now }],
             nextTestimonialId := st.nextTestimonialId + 1 }) := by
  unfold postTestimonial
  rw [h, h2]
  simp

/-- C1, counterexample: with every other field present, a rating of 0 is
falsy, so the handler answers 400 with the missing-field message and never
reaches the range check; the claim demands the distinct out-of-range message
for every rating outside the range, including 0. -/
theorem C1_counterexample :
    postTestimonial (tbody (.num 0)) emptyStore
      = ({ status := 400,
           body := .errorMsg "All testimonial fields (except title) are required." },
         emptyStore)
    ∧ RespBody.errorMsg "All testimonial fields (except title) are required."
      ≠ RespBody.errorMsg "Rating must be between 1 and 5." :=
  ⟨by decide, by decide⟩

/-- C1, amended: with the other required fields present, testimonial
creation succeeds (201, row inserted) iff 1 le r le 5; every rating outside
the range yields 400 with no state change, carrying the out-of-range message
when r is nonzero but the missing-field message when r = 0, because a zero
rating is falsy and trips the presence check first. -/
theorem C1_rating_range (r : Rat) (b : TestimonialBody) (st : Store)
    (hr : b.rating = .num r)
    (h1 : truthy b.reviewerName = true) (h2 : truthy b.reviewerEmail = true)
    (h3 : truthy b.reviewText = true) (h4 : b.genuineOpinion ≠ .undefined) :
    ((1 ≤ r ∧ r ≤ 5) →
      (postTestimonial b st).1.status = 201 ∧
      (postTestimonial b st).2.testimonials.length = st.testimonials.length + 1)
    ∧ (¬(1 ≤ r ∧ r ≤ 5) →
      (postTestimonial b st).1.status = 400 ∧ (postTestimonial b st).2 = st
      ∧ (r ≠ 0 →
          (postTestimonial b st).1.body
            = .errorMsg "Rating must be between 1 and 5.")
      ∧ (r = 0 →
          (postTestimonial b st).1.body
            = .errorMsg "All testimonial fields (except title) are required.")) := by
  have h4' : (b.genuineOpinion == JSVal.undefined) = false :=
    beq_eq_false_iff_ne.mpr h4
  have hc := testimonialCond_eq b h1 h2 h3 h4'
  constructor
  · rintro ⟨ha, hb⟩
    have hr0 : r ≠ 0 := by
      intro h
      rw [h] at ha
      norm_num at ha
    have htr : truthy b.rating = true := by
      rw [hr, truthy_num]
      simp [bne_iff_ne, hr0]
    have hmiss := hc.trans (by rw [htr])
    have hrange : (jsLtNum b.rating 1 || jsGtNum b.rating 5) = false := by
      rw [hr, jsLtNum_num, jsGtNum_num]
      simp [not_lt, ha, hb]
    rw [postTestimonial_created b st hmiss hrange]
    simp
  · intro hout
    by_cases h0 : r = 0
    · have htr : truthy b.rating = false := by
        rw [hr, truthy_num, h0]
        simp
      have hmiss := hc.trans (by rw [htr])
      rw [postTestimonial_missing b st hmiss]
      simp [h0]
    · have htr : truthy b.rating = true := by
        rw [hr, truthy_num]
        simp [bne_iff_ne, h0]
      have hmiss := hc.trans (by rw [htr])
      have hor : r < 1 ∨ 5 < r := by
        rcases not_and_or.mp hout with h | h
        · exact Or.inl (not_le.mp h)
        · exact Or.inr (not_le.mp h)
      have hrange : (jsLtNum b.rating 1 || jsGtNum b.rating 5) = true := by
        rw [hr, jsLtNum_num, jsGtNum_num]
        rcases hor with h | h <;> simp [h]
      rw [postTestimonial_range b st hmiss hrange]
      simp [h0]

/-- C1, witness: a rating of 3 with the other fields present creates the
testimonial. -/
theorem C1_rating_range_witness :
    (postTestimonial (tbody (.num 3)) emptyStore).1.status = 201 ∧
    (postTestimonial (tbody (.num 3)) emptyStore).2.testimonials.length
      = emptyStore.testimonials.length + 1 :=
  (C1_rating_range 3 (tbody (.num 3)) emptyStore rfl (by decide) (by decide)
    (by decide) (by decide)).1 (by norm_num)

/-- Normalization of the documented example price with a currency symbol and
a thousands separator. -/
theorem cleanPrice_dollar_comma :
    cleanPrice (.str "$1,250.50") = some ((2501 : Rat) / 2) := by
  have hs : stripPriceChars (jsToString (JSVal.str "$1,250.50"))
      = ['1', '2', '5', '0', '.', '5', '0'] := by decide
  unfold cleanPrice
  rw [hs]
  unfold parseFloatDD
  simp +decide [digitsVal, List.foldl]
  norm_num

/-- C2: the price normalization keeps exactly the digits and dots of the
input and parses the rest as a number: the example with a currency symbol and
a comma normalizes to 1250.50, a plain dollar amount to 45, and any value
whose strip is empty yields NaN (none). -/
theorem C2_price_normalization :
    cleanPrice (.str "$1,250.50") = some ((2501 : Rat) / 2)
    ∧ cleanPrice (.str "$45.00") = some 45
    ∧ (∀ v : JSVal, stripPriceChars (jsToString v) = [] → cleanPrice v = none) := by
  refine ⟨cleanPrice_dollar_comma, ?_, ?_⟩
  · have hs : stripPriceChars (jsToString (JSVal.str "$45.00"))
        = ['4', '5', '.', '0', '0'] := by decide
    unfold cleanPrice
    rw [hs]
    unfold parseFloatDD
    simp +decide [digitsVal, List.foldl]
  · intro v h
    unfold cleanPrice
    rw [h]
    rfl

/-- C2, witness: a letters-only price strips to the empty string and
normalizes to NaN. -/
theorem C2_price_normalization_witness :
    stripPriceChars (jsToString (.str "abc")) = []
    ∧ cleanPrice (.str "abc") = none :=
  ⟨by decide, C2_price_normalization.2.2 (.str "abc") (by decide)⟩

/-- C4: a booking create in which any one of the six required fields is
falsy answers 400 with the enumerated message and returns the store
unchanged, so no persistence is attempted. -/
theorem C4_missing_field (b : BookingBody) (st : Store)
    (h : truthy b.service = false ∨ truthy b.duration = false
      ∨ truthy b.price = false ∨ truthy b.name = false
      ∨ truthy b.phone = false ∨ truthy b.datetime = false) :
    postBooking b st
      = ({ status := 400, body := .errorMsg "All booking fields are required." }, st) := by
  unfold postBooking
  rcases h with h | h | h | h | h | h <;> simp [h]

/-- Booking body with a missing service field. -/
def bookingBodyNoService : BookingBody :=
  { service := .undefined, duration := .str "60", price := .str "$45.00",
    name := .str "Ann", phone := .str "0123", datetime := .str "20240101" }

/-- C4, witness: a booking create with the service field absent answers 400
and leaves the empty store empty. -/
theorem C4_missing_field_witness :
    postBooking bookingBodyNoService emptyStore
      = ({ status := 400, body := .errorMsg "All booking fields are required." },
         emptyStore) :=
  C4_missing_field bookingBodyNoService emptyStore (Or.inl (by decide))

/-- C10: a payment initiation whose three fields are all truthy but whose
amount is the JSON number 50 raises a TypeError (amount.replace is a string
method) instead of producing any HTTP response. -/
theorem C10_initiate_type_error :
    truthy (JSVal.num 50) = true
    ∧ initiatePayment 1700000000000 [10] ⟨.num 50, .str "Massage", .str "1"⟩ emptyStore
      = .error .typeError :=
  ⟨by decide, rfl⟩

/-- Identifiers are untouched by the confirmation row transform. -/
theorem completeFor_id (i : Int) (bk : Booking) : (completeFor i bk).id = bk.id := by
  unfold completeFor
  split <;> rfl

/-- Applying the confirmation row transform twice is the same as once. -/
theorem completeFor_idem (i : Int) (bk : Booking) :
    completeFor i (completeFor i bk) = completeFor i bk := by
  by_cases h : (bk.id : Int) = i <;> simp [completeFor, h]

/-- Outcome of payment confirmation when some row matches the id: 200 with
the confirmation message, and the store after the UPDATE. -/
theorem confirmPayment_matched (v : JSVal) (st : Store) (i : Int)
    (hv : truthy v = true) (hid : jsIdVal v = some i)
    (hm : (st.bookings.filter (fun bk => (bk.id : Int) == i)).length ≠ 0) :
    confirmPayment ⟨v⟩ st
      = ({ status := 200,
           body := .message ("Payment for booking ID " ++ jsToString v
             ++ " confirmed successfully.") },
         { st with bookings := st.bookings.map (completeFor i) }) := by
  unfold confirmPayment
  simp only [hv, hid]
  simp [hm]

/-- Outcome of payment confirmation when no row matches the id: 404, and the
store after the vacuous UPDATE. -/
theorem confirmPayment_unmatched (v : JSVal) (st : Store) (i : Int)
    (hv : truthy v = true) (hid : jsIdVal v = some i)
    (hm : (st.bookings.filter (fun bk => (bk.id : Int) == i)).length = 0) :
    confirmPayment ⟨v⟩ st
      = ({ status := 404,
           body := .errorMsg ("Booking with ID " ++ jsToString v
             ++ " not found for payment confirmation.") },
         { st with bookings := st.bookings.map (completeFor i) }) := by
  unfold confirmPayment
  simp only [hv, hid]
  simp [hm]

/-- A row whose id matches gives a nonzero matched count. -/
theorem matched_length_ne_zero (st : Store) (i : Int)
    (hex : ∃ bk ∈ st.bookings, (bk.id : Int) = i) :
    (st.bookings.filter (fun bk => (bk.id : Int) == i)).length ≠ 0 := by
  obtain ⟨bk, hbk, hbid⟩ := hex
  intro h
  rw [List.length_eq_zero, List.filter_eq_nil_iff] at h
  exact h bk hbk (by simp [hbid])

/-- C3, counterexample: confirming the payment of the existing booking bk1
answers 200 and updates the row in the store, but the response body is only
the confirmation message: it does not carry the updated booking row the
claim requires. -/
theorem C3_counterexample :
    (confirmPayment ⟨.num 1⟩ st1).1.status = 200
    ∧ (confirmPayment ⟨.num 1⟩ st1).2.bookings
        = [{ bk1 with payment_status := some "completed" }]
    ∧ bodyHasBooking (confirmPayment ⟨.num 1⟩ st1).1.body
        { bk1 with payment_status := some "completed" } = false
    ∧ (confirmPayment ⟨.num 1⟩ st1).1.body
        = .message "Payment for booking ID 1 confirmed successfully." := by
  refine ⟨by decide, by decide, by decide, by decide⟩

/-- C3, amended: for a payment confirmation whose bookingId matches an
existing booking, the handler sets the matching rows' payment_status to
completed and answers 200, but the success body is a confirmation message
naming the booking id; the updated row is returned by the store yet not
included in the response body. -/
theorem C3_confirm_updates (st : Store) (v : JSVal) (i : Int)
    (hv : truthy v = true) (hid : jsIdVal v = some i)
    (hex : ∃ bk ∈ st.bookings, (bk.id : Int) = i) :
    (confirmPayment ⟨v⟩ st).1.status = 200
    ∧ (confirmPayment ⟨v⟩ st).1.body
        = .message ("Payment for booking ID " ++ jsToString v
            ++ " confirmed successfully.")
    ∧ (confirmPayment ⟨v⟩ st).2.bookings = st.bookings.map (completeFor i)
    ∧ (∀ bk ∈ (confirmPayment ⟨v⟩ st).2.bookings,
        (bk.id : Int) = i → bk.payment_status = some "completed") := by
  have hm := matched_length_ne_zero st i hex
  rw [confirmPayment_matched v st i hv hid hm]
  refine ⟨rfl, rfl, rfl, ?_⟩
  intro bk hmem hbid
  obtain ⟨a, _, rfl⟩ := List.mem_map.mp hmem
  rw [completeFor_id] at hbid
  simp [completeFor, hbid]

/-- C3, witness: confirming booking 1 in the one-row store succeeds and
completes the row. -/
theorem C3_confirm_updates_witness :
    (confirmPayment ⟨.num 1⟩ st1).1.status = 200
    ∧ (confirmPayment ⟨.num 1⟩ st1).1.body
        = .message ("Payment for booking ID " ++ jsToString (.num 1)
            ++ " confirmed successfully.")
    ∧ (confirmPayment ⟨.num 1⟩ st1).2.bookings = st1.bookings.map (completeFor 1)
    ∧ (∀ bk ∈ (confirmPayment ⟨.num 1⟩ st1).2.bookings,
        (bk.id : Int) = 1 → bk.payment_status = some "completed") :=
  C3_confirm_updates st1 (.num 1) 1 (by decide) (by decide)
    ⟨bk1, by decide, by decide⟩

/-- C5: a payment confirmation whose bookingId reads as an integer matching
no booking row answers 404 with the id-specific message and leaves the store
exactly unchanged. -/
theorem C5_confirm_not_found (st : Store) (v : JSVal) (i : Int)
    (hv : truthy v = true) (hid : jsIdVal v = some i)
    (hno : ∀ bk ∈ st.bookings, (bk.id : Int) ≠ i) :
    confirmPayment ⟨v⟩ st
      = ({ status := 404,
           body := .errorMsg ("Booking with ID " ++ jsToString v
             ++ " not found for payment confirmation.") }, st) := by
  have hm : (st.bookings.filter (fun bk => (bk.id : Int) == i)).length = 0 := by
    rw [List.length_eq_zero, List.filter_eq_nil_iff]
    intro bk hbk
    simp [hno bk hbk]
  rw [confirmPayment_unmatched v st i hv hid hm]
  have hmap : st.bookings.map (completeFor i) = st.bookings := by
    rw [show st.bookings.map (completeFor i)
          = st.bookings.map id from
        List.map_congr_left (fun bk hbk => by simp [completeFor, hno bk hbk])]
    exact List.map_id st.bookings
  rw [hmap]

/-- C5, witness: confirming booking 7 on the empty store answers 404 and
leaves the store empty. -/
theorem C5_confirm_not_found_witness :
    confirmPayment ⟨.num 7⟩ emptyStore
      = ({ status := 404,
           body := .errorMsg ("Booking with ID " ++ jsToString (.num 7)
             ++ " not found for payment confirmation.") }, emptyStore) :=
  C5_confirm_not_found emptyStore (.num 7) 7 (by decide) (by decide)
    (fun bk hbk => absurd hbk (List.not_mem_nil bk))

/-- C9: payment confirmation is idempotent; for a bookingId matching an
existing row, confirming twice answers 200 both times and the second run
leaves the store exactly as after the first. -/
theorem C9_confirm_idempotent (st : Store) (v : JSVal) (i : Int)
    (hv : truthy v = true) (hid : jsIdVal v = some i)
    (hex : ∃ bk ∈ st.bookings, (bk.id : Int) = i) :
    (confirmPayment ⟨v⟩ st).1.status = 200
    ∧ (confirmPayment ⟨v⟩ ((confirmPayment ⟨v⟩ st).2)).1.status = 200
    ∧ (confirmPayment ⟨v⟩ ((confirmPayment ⟨v⟩ st).2)).2
        = (confirmPayment ⟨v⟩ st).2 := by
  have hm := matched_length_ne_zero st i hex
  rw [confirmPayment_matched v st i hv hid hm]
  obtain ⟨bk, hbk, hbid⟩ := hex
  have hex2 : ∃ bk2 ∈ st.bookings.map (completeFor i), (bk2.id : Int) = i :=
    ⟨completeFor i bk, List.mem_map_of_mem (completeFor i) hbk,
      by rw [completeFor_id]; exact hbid⟩
  have hm2 : ((st.bookings.map (completeFor i)).filter
      (fun b2 => (b2.id : Int) == i)).length ≠ 0 := by
    obtain ⟨bk2, hbk2, hbid2⟩ := hex2
    intro h
    rw [List.length_eq_zero, List.filter_eq_nil_iff] at h
    exact h bk2 hbk2 (by simp [hbid2])
  rw [confirmPayment_matched v { st with bookings := st.bookings.map (completeFor i) } i hv hid hm2]
  refine ⟨rfl, rfl, ?_⟩
  simp only [List.map_map]
  rw [List.map_congr_left (fun a _ => Function.comp_apply.trans (completeFor_idem i a))]

/-- C9, witness: confirming booking 1 twice in the one-row store answers 200
both times and the second confirmation changes nothing. -/
theorem C9_confirm_idempotent_witness :
    (confirmPayment ⟨.num 1⟩ st1).1.status = 200
    ∧ (confirmPayment ⟨.num 1⟩ ((confirmPayment ⟨.num 1⟩ st1).2)).1.status = 200
    ∧ (confirmPayment ⟨.num 1⟩ ((confirmPayment ⟨.num 1⟩ st1).2)).2
        = (confirmPayment ⟨.num 1⟩ st1).2 :=
  C9_confirm_idempotent st1 (.num 1) 1 (by decide) (by decide)
    ⟨bk1, by decide, by decide⟩

/-- Outcome of the booking create when all six fields are truthy. -/
theorem postBooking_created (b : BookingBody) (st : Store)
    (h : (!truthy b.service || !truthy b.duration || !truthy b.price
      || !truthy b.name || !truthy b.phone || !truthy b.datetime) = false) :
    postBooking b st
      = ({ status := 201, body := .bookingRow (mkBooking b st) },
         { st with bookings := st.bookings ++ [mkBooking b st],
                   nextBookingId := st.nextBookingId + 1 }) := by
  unfold postBooking
  rw [h]
  simp

/-- Valid booking body used in concrete evaluations; its price carries a
currency symbol and a comma. -/
def bodyC7 : BookingBody :=
  { service := .str "Swedish Massage", duration := .str "60",
    price := .str "$1,250.50", name := .str "Ann", phone := .str "012345",
    datetime := .str "20240101" }

/-- C7, counterexample: creating a booking with the price string 1,250.50
dollars succeeds and the subsequent list contains exactly the new row, but
its stored price is the number 1250.50 while the submitted price was a
string whose numeric reading is NaN: the submitted price value is not
preserved, it is normalized. -/
theorem C7_counterexample :
    (postBooking bodyC7 emptyStore).1.status = 201
    ∧ (getBookings (postBooking bodyC7 emptyStore).2).body
        = .bookingRows
            [{ id := 1, service := .str "Swedish Massage", duration := .str "60",
               price := some ((2501 : Rat) / 2), name := .str "Ann",
               phone := .str "012345", datetime := .str "20240101",
               payment_status := none }]
    ∧ bodyC7.price = .str "$1,250.50"
    ∧ toNumber bodyC7.price = none := by
  have hcond : (!truthy bodyC7.service || !truthy bodyC7.duration
      || !truthy bodyC7.price || !truthy bodyC7.name || !truthy bodyC7.phone
      || !truthy bodyC7.datetime) = false := by decide
  rw [postBooking_created bodyC7 emptyStore hcond]
  refine ⟨rfl, ?_, rfl, by decide⟩
  simp [getBookings, sortBookings, mkBooking, List.insertionSort, emptyStore,
    bodyC7, cleanPrice_dollar_comma]

/-- C7, amended: for every booking create whose six fields are truthy,
starting from the empty store, the POST answers 201 with the inserted row,
the subsequent GET lists exactly that row, its id is server-assigned, the
service, duration, name, phone and datetime values are unchanged, and the
price is the cleanPrice normalization of the submitted price rather than the
submitted value itself. -/
theorem C7_create_then_list (b : BookingBody)
    (h1 : truthy b.service = true) (h2 : truthy b.duration = true)
    (h3 : truthy b.price = true) (h4 : truthy b.name = true)
    (h5 : truthy b.phone = true) (h6 : truthy b.datetime = true) :
    (postBooking b emptyStore).1.status = 201
    ∧ (postBooking b emptyStore).1.body = .bookingRow (mkBooking b emptyStore)
    ∧ (getBookings (postBooking b emptyStore).2).body
        = .bookingRows [mkBooking b emptyStore]
    ∧ (mkBooking b emptyStore).id = emptyStore.nextBookingId
    ∧ (mkBooking b emptyStore).service = b.service
    ∧ (mkBooking b emptyStore).duration = b.duration
    ∧ (mkBooking b emptyStore).name = b.name
    ∧ (mkBooking b emptyStore).phone = b.phone
    ∧ (mkBooking b emptyStore).datetime = b.datetime
    ∧ (mkBooking b emptyStore).price = cleanPrice b.price := by
  have hcond : (!truthy b.service || !truthy b.duration || !truthy b.price
      || !truthy b.name || !truthy b.phone || !truthy b.datetime) = false := by
    rw [h1, h2, h3, h4, h5, h6]
    rfl
  rw [postBooking_created b emptyStore hcond]
  refine ⟨rfl, rfl, ?_, rfl, rfl, rfl, rfl, rfl, rfl, rfl⟩
  simp [getBookings, sortBookings, emptyStore, List.insertionSort]

/-- C7, witness: the concrete valid body creates and lists its row. -/
theorem C7_create_then_list_witness :
    (postBooking bodyC7 emptyStore).1.status = 201
    ∧ (postBooking bodyC7 emptyStore).1.body = .bookingRow (mkBooking bodyC7 emptyStore)
    ∧ (getBookings (postBooking bodyC7 emptyStore).2).body
        = .bookingRows [mkBooking bodyC7 emptyStore]
    ∧ (mkBooking bodyC7 emptyStore).id = emptyStore.nextBookingId
    ∧ (mkBooking bodyC7 emptyStore).service = bodyC7.service
    ∧ (mkBooking bodyC7 emptyStore).duration = bodyC7.duration
    ∧ (mkBooking bodyC7 emptyStore).name = bodyC7.name
    ∧ (mkBooking bodyC7 emptyStore).phone = bodyC7.phone
    ∧ (mkBooking bodyC7 emptyStore).datetime = bodyC7.datetime
    ∧ (mkBooking bodyC7 emptyStore).price = cleanPrice bodyC7.price :=
  C7_create_then_list bodyC7 (by decide) (by decide) (by decide) (by decide)
    (by decide) (by decide)

/-- Booking row with an ISO date-and-time datetime in 2024. -/
def bkA : Booking :=
  { id := 2, service := .str "Facial", duration := .str "30",
    price := some 30, name := .str "Bea", phone := .str "0456",
    datetime := .str "2024-01-01T10:00", payment_status := none }

/-- Booking row with a date-only datetime in 2023. -/
def bkB : Booking :=
  { id := 3, service := .str "Sauna", duration := .str "45",
    price := some 25, name := .str "Cal", phone := .str "0789",
    datetime := .str "2023-12-31", payment_status := none }

/-- Booking row with a seconds-precision datetime in 2025. -/
def bkC : Booking :=
  { id := 4, service := .str "Hot Stone", duration := .str "90",
    price := some 120, name := .str "Dee", phone := .str "0246",
    datetime := .str "2025-06-15T08:30:15", payment_status := some "completed" }

/-- Testimonial created at store clock 3. -/
def tmA : Testimonial :=
  { id := 1, reviewer_name := .str "Ann", reviewer_email := .str "a@spa.example",
    review_title := .undefined, review_text := .str "Fine", rating := .num 4,
    genuine_opinion := .bool true, created_at := 3 }

/-- Testimonial created at store clock 11. -/
def tmB : Testimonial :=
  { id := 2, reviewer_name := .str "Bea", reviewer_email := .str "b@spa.example",
    review_title := .str "Great", review_text := .str "Loved it", rating := .num 5,
    genuine_opinion := .bool true, created_at := 11 }

/-- Testimonial created at store clock 7. -/
def tmC : Testimonial :=
  { id := 3, reviewer_name := .str "Cal", reviewer_email := .str "c@spa.example",
    review_title := .undefined, review_text := .str "Good", rating := .num 3,
    genuine_opinion := .bool false, created_at := 7 }

/-- Store whose bookings carry ordinary ISO timestamp strings out of order
and whose testimonials carry out-of-order creation clocks. -/
def tsStore : Store :=
  { bookings := [bkA, bkB, bkC], testimonials := [tmA, tmB, tmC],
    nextBookingId := 5, nextTestimonialId := 4, now := 12 }

/-- C8: the booking list answers 200 with exactly the stored rows reordered
by datetime descending, and the testimonial list answers 200 with exactly
the stored rows reordered by created_at descending; on the concrete store
of ordinary ISO timestamps the booking list comes back newest first
(2025-06-15T08:30:15, then 2024-01-01T10:00, then 2023-12-31) with those
three instants strictly increasing in time, and the testimonial list comes
back latest clock first. -/
theorem C8_list_ordering :
    (∀ st : Store,
      (getBookings st).status = 200
      ∧ (getBookings st).body = .bookingRows (sortBookings st.bookings)
      ∧ (sortBookings st.bookings).Perm st.bookings
      ∧ List.Sorted bookingGe (sortBookings st.bookings)
      ∧ (getTestimonials st).status = 200
      ∧ (getTestimonials st).body = .testimonialRows (sortTestimonials st.testimonials)
      ∧ (sortTestimonials st.testimonials).Perm st.testimonials
      ∧ List.Sorted testimonialGe (sortTestimonials st.testimonials))
    ∧ (getBookings tsStore).body = .bookingRows [bkC, bkA, bkB]
    ∧ tsVal bkB.datetime < tsVal bkA.datetime
    ∧ tsVal bkA.datetime < tsVal bkC.datetime
    ∧ (getTestimonials tsStore).body = .testimonialRows [tmB, tmC, tmA] :=
  ⟨fun st =>
    ⟨rfl, rfl, List.perm_insertionSort bookingGe st.bookings,
      List.sorted_insertionSort bookingGe st.bookings, rfl, rfl,
      List.perm_insertionSort testimonialGe st.testimonials,
      List.sorted_insertionSort testimonialGe st.testimonials⟩,
    by decide, by decide, by decide, by decide⟩

/-- Digit characters render digits. -/
theorem digitChar_isDigit {k : Nat} (h : k < 10) :
    (Nat.digitChar k).isDigit = true := by
  interval_cases k <;> decide

/-- Every character produced by the fueled digit printer is a digit. -/
theorem natCharsAux_digits :
    ∀ fuel n : Nat, ∀ c ∈ natCharsAux fuel n, c.isDigit = true := by
  intro fuel
  induction fuel with
  | zero =>
    intro n c hc
    simp [natCharsAux] at hc
  | succ f ih =>
    intro n c hc
    unfold natCharsAux at hc
    by_cases h : n < 10
    · rw [if_pos h] at hc
      simp at hc
      subst hc
      exact digitChar_isDigit h
    · rw [if_neg h] at hc
      rcases List.mem_append.mp hc with h1 | h1
      · exact ih _ _ h1
      · simp at h1
        subst h1
        exact digitChar_isDigit (Nat.mod_lt _ (by omega))

/-- Every character of the decimal print of a natural number is a digit. -/
theorem natChars_digits (n : Nat) : ∀ c ∈ natChars n, c.isDigit = true :=
  natCharsAux_digits (n + 1) n

/-- The decimal print of a natural number is never empty. -/
theorem natChars_ne_nil (n : Nat) : natChars n ≠ [] := by
  unfold natChars natCharsAux
  split <;> simp

/-- Scanning digits stops exactly at the dash after an all-digit prefix. -/
theorem takeWhile_digits_dash (l r : List Char) (h : ∀ c ∈ l, c.isDigit = true) :
    (l ++ '-' :: r).takeWhile Char.isDigit = l
    ∧ (l ++ '-' :: r).dropWhile Char.isDigit = '-' :: r := by
  induction l with
  | nil =>
    constructor <;> simp +decide [List.takeWhile_cons, List.dropWhile_cons]
  | cons a l ih =>
    have ha := h a (List.mem_cons_self a l)
    have ih' := ih (fun c hc => h c (List.mem_cons_of_mem a hc))
    constructor
    · simp [List.takeWhile_cons, ha, ih'.1]
    · simp [List.dropWhile_cons, ha, ih'.2]

/-- Base-36 digits print as lowercase alphanumeric characters. -/
theorem base36Char_alnum : ∀ d : Fin 36, isLowerAlnum (base36Char d) = true := by
  decide

/-- Character list of the generated transaction id. -/
theorem txnId_toList (now : Nat) (rand : List (Fin 36)) :
    (txnId now rand).toList
      = 'T' :: 'X' :: 'N' :: '-' :: (natChars now ++ '-' :: rand.map base36Char) := by
  have h1 : ("TXN-" : String).data = ['T', 'X', 'N', '-'] := rfl
  have h2 : ("-" : String).data = ['-'] := rfl
  simp [txnId, String.toList, String.data_append, h1, h2, String.mk]

/-- The generated transaction id always matches TXN-(digits)-(alphanumeric)
when at least one random base-36 digit is present. -/
theorem txnMatches_txnId (now : Nat) (rand : List (Fin 36)) (h : rand ≠ []) :
    txnMatches (txnId now rand) = true := by
  unfold txnMatches
  rw [txnId_toList]
  have hsc := takeWhile_digits_dash (natChars now) (rand.map base36Char)
    (natChars_digits now)
  simp +decide [hsc.1, hsc.2, List.isEmpty_eq_false, List.all_eq_true, h,
    natChars_ne_nil now]
  intro c _
  exact base36Char_alnum c

/-- C6, counterexample: a payment initiation whose three fields are all
truthy but whose amount is the boolean true raises a TypeError instead of
answering 200 with the pending payload. -/
theorem C6_counterexample :
    truthy (JSVal.bool true) = true
    ∧ truthy (JSVal.str "Facial") = true
    ∧ truthy (JSVal.str "2") = true
    ∧ initiatePayment 0 [0] ⟨.bool true, .str "Facial", .str "2"⟩ emptyStore
        = .error .typeError :=
  ⟨rfl, by decide, by decide, rfl⟩

/-- C6, amended: for a payment initiation whose amount is a truthy string
and whose serviceName and bookingId are truthy, the handler performs no
persistence (the store is returned unchanged) and answers 200 with status
pending and a transactionId matching TXN-(digits)-(alphanumeric). -/
theorem C6_initiate_simulation (now : Nat) (rand : List (Fin 36)) (a : String)
    (sn bid : JSVal) (st : Store)
    (ha : truthy (.str a) = true) (hs : truthy sn = true)
    (hb : truthy bid = true) (hr : rand ≠ []) :
    initiatePayment now rand ⟨.str a, sn, bid⟩ st
      = .ok ({ status := 200,
               body := .paymentInit
                 "Payment initiation successful (simulated). Scan QR to complete."
                 (qrUrl a bid) (txnId now rand) "pending" }, st)
    ∧ txnMatches (txnId now rand) = true := by
  constructor
  · unfold initiatePayment
    simp [ha, hs, hb]
  · exact txnMatches_txnId now rand hr

/-- C6, witness: the documented example request with amount 50 dollars. -/
theorem C6_initiate_simulation_witness :
    initiatePayment 1 [35] ⟨.str "$50", .str "Massage", .str "1"⟩ emptyStore
      = .ok ({ status := 200,
               body := .paymentInit
                 "Payment initiation successful (simulated). Scan QR to complete."
                 (qrUrl "$50" (.str "1")) (txnId 1 [35]) "pending" }, emptyStore)
    ∧ txnMatches (txnId 1 [35]) = true :=
  C6_initiate_simulation 1 [35] "$50" (.str "Massage") (.str "1") emptyStore
    (by decide) (by decide) (by decide) (by decide)

end GoodSpa
